import Mathlib

/-!
Shallow embedding of the voter-registration transaction lifecycle of
`src/electos/vanadium/app/routes/voter_registration.py`, together with the
storage contract of the specification, and proofs of the lifecycle claims.

The repository source contains only the route handlers.  The storage backend
(`vanadium.app.resources.storage`) and the NIST VRI response models
(`vanadium.models.nist.vri`) are imported from modules that are not part of
the given sources; they are modelled from the specification where that is
said explicitly in doc comments below.
-/

/-- Modelled from the spec: the action tags of `SuccessAction` from
`vanadium.models.nist.vri` (that module is not among the sources).  The three
tags used by the handlers are `registration-created`, `registration-updated`,
`registration-cancelled`. -/
inductive SuccessAction where
  | REGISTRATION_CREATED
  | REGISTRATION_UPDATED
  | REGISTRATION_CANCELLED
deriving DecidableEq, Repr

/-- Modelled from the spec: machine-readable error codes of `RequestError`
from `vanadium.models.nist.vri` (not among the sources).  The NIST VRI
enumeration has several codes; the spec says the core uses the single code
`IDENTITY_LOOKUP_FAILED` for both failure kinds.  A second code is kept in
the type so that "always uses this one code" is not vacuous. -/
inductive RequestError where
  | IDENTITY_LOOKUP_FAILED
  | IDENTITY_NOT_CONFIRMED
deriving DecidableEq, Repr

/-- Modelled from the spec: the `Error` wrapper of `vanadium.models.nist.vri`
(not among the sources), carrying a machine-readable code in its `Name`. -/
structure Error where
  Name : RequestError
deriving DecidableEq, Repr

/-- The request payload (`VoterRecordsRequest`).  The core treats the record
as opaque; only its `transaction_id` field is inspected by the handlers
(`item.transaction_id` at line 96).  The remaining fields are collapsed into
an opaque `payload`. -/
structure VoterRecordsRequest where
  transaction_id : Option String
  payload : Nat
deriving DecidableEq, Repr

/-- A Python value as the handlers see the storage's return value: the
handlers branch on truthiness (`if registration_id:` at line 97,
`if value:` at lines 181, 271, 350), so the embedding keeps the
distinctions truthiness makes: `none` (Python `None`), strings (falsy
exactly when empty), and record objects (pydantic models, always truthy). -/
inductive PyVal where
  | none
  | str (s : String)
  | record (r : VoterRecordsRequest)
deriving DecidableEq, Repr

/-- Python truthiness of an embedded value: `None` is falsy, a string is
falsy exactly when empty, a pydantic model object is always truthy. -/
def PyVal.truthy : PyVal → Bool
  | .none => false
  | .str s => !(s == "")
  | .record _ => true

/-- The three response shapes (`RequestSuccess`, `RequestRejection`,
`RequestAcknowledgement`, all `VoterRecordsResponse` sub-classes), with the
fields the handlers set. -/
inductive VoterRecordsResponse where
  | RequestSuccess (Action : List SuccessAction) (TransactionId : PyVal)
  | RequestRejection (AdditionalDetails : List String) (Err : List Error)
      (TransactionId : PyVal)
  | RequestAcknowledgement (TransactionId : PyVal)
deriving DecidableEq, Repr

def HTTP_200_OK : Nat := 200
def HTTP_201_CREATED : Nat := 201
def HTTP_400_BAD_REQUEST : Nat := 400
def HTTP_404_NOT_FOUND : Nat := 404

/-- A handler's observable result: the returned response body and the final
transport status code of `http_response`. -/
structure HandlerResult where
  response : VoterRecordsResponse
  status_code : Nat
deriving DecidableEq, Repr

/-- Detail string of the create-conflict rejection (lines 108-109; Python
concatenates the two adjacent string literals). -/
def conflictDetail : String :=
  "Voter registration request already exists. " ++
  "The transaction ID is already associated to a pending request."

/-- Detail string of the not-found rejections (lines 190-191, 281-282,
360-361). -/
def notFoundDetail : String :=
  "Voter registration request not found. " ++
  "The transaction ID isn't associated with any pending requests."

/-- Decision logic of `voter_registration_request` (lines 96-120), given the
value returned by `storage.insert` and the incoming status code of
`http_response`.  Both branches overwrite the status code. -/
def voter_registration_request_logic (registration_id : PyVal)
    (http_status : Nat) : HandlerResult :=
  if registration_id.truthy then
    { response := .RequestSuccess [SuccessAction.REGISTRATION_CREATED]
        registration_id
      status_code := HTTP_201_CREATED }
  else
    { response := .RequestRejection [conflictDetail]
        [⟨RequestError.IDENTITY_LOOKUP_FAILED⟩] registration_id
      status_code := HTTP_400_BAD_REQUEST }

/-- Decision logic of `voter_registration_status` (lines 180-199), given the
value returned by `storage.lookup`.  The success branch leaves the incoming
status code unchanged. -/
def voter_registration_status_logic (transaction_id : String) (value : PyVal)
    (http_status : Nat) : HandlerResult :=
  if value.truthy then
    { response := .RequestAcknowledgement (.str transaction_id)
      status_code := http_status }
  else
    { response := .RequestRejection [notFoundDetail]
        [⟨RequestError.IDENTITY_LOOKUP_FAILED⟩] (.str transaction_id)
      status_code := HTTP_404_NOT_FOUND }

/-- Decision logic of `voter_registration_update` (lines 270-290), given the
value returned by `storage.update`. -/
def voter_registration_update_logic (transaction_id : String) (value : PyVal)
    (http_status : Nat) : HandlerResult :=
  if value.truthy then
    { response := .RequestSuccess [SuccessAction.REGISTRATION_UPDATED]
        (.str transaction_id)
      status_code := http_status }
  else
    { response := .RequestRejection [notFoundDetail]
        [⟨RequestError.IDENTITY_LOOKUP_FAILED⟩] (.str transaction_id)
      status_code := HTTP_404_NOT_FOUND }

/-- Decision logic of `voter_registration_cancel` (lines 349-369), given the
value returned by `storage.remove`. -/
def voter_registration_cancel_logic (transaction_id : String) (value : PyVal)
    (http_status : Nat) : HandlerResult :=
  if value.truthy then
    { response := .RequestSuccess [SuccessAction.REGISTRATION_CANCELLED]
        (.str transaction_id)
      status_code := http_status }
  else
    { response := .RequestRejection [notFoundDetail]
        [⟨RequestError.IDENTITY_LOOKUP_FAILED⟩] (.str transaction_id)
      status_code := HTTP_404_NOT_FOUND }

/-- Shape tests on responses. -/
def VoterRecordsResponse.isSuccess : VoterRecordsResponse → Bool
  | .RequestSuccess _ _ => true
  | _ => false

def VoterRecordsResponse.isRejection : VoterRecordsResponse → Bool
  | .RequestRejection _ _ _ => true
  | _ => false

def VoterRecordsResponse.isAcknowledgement : VoterRecordsResponse → Bool
  | .RequestAcknowledgement _ => true
  | _ => false

/-- Modelled from the spec: the storage backend
(`vanadium.app.resources.storage`) is not among the sources; its contract is
taken from §4.1 of the specification.  The store is the shared
identifier-to-record mapping, embedded as an association list whose live
keys are unique. -/
abbrev Storage : Type := List (String × VoterRecordsRequest)

/-- Live identifiers of the store. -/
def Storage.keys (s : Storage) : List String := s.map Prod.fst

/-- Record stored under an identifier, if any. -/
def Storage.find? : Storage → String → Option VoterRecordsRequest
  | [], _ => Option.none
  | e :: rest, id => if e.1 = id then some e.2 else Storage.find? rest id

/-- An identifier is in use when a record is stored under it. -/
def Storage.inUse (s : Storage) (id : String) : Bool := (s.find? id).isSome

/-- Length of the longest live identifier, used to generate fresh ones. -/
def Storage.maxKeyLen : Storage → Nat
  | [] => 0
  | e :: rest => max e.1.length (Storage.maxKeyLen rest)

/-- Modelled from the spec: "if `requested_id` is absent, generate a fresh
identifier guaranteed not currently in use".  The generated identifier is
longer than every live one, hence fresh. -/
def Storage.freshId (s : Storage) : String :=
  String.mk (List.replicate (s.maxKeyLen + 1) 'u')

/-- Modelled from the spec (§4.1 `insert`): conflict when the requested
identifier is in use, otherwise store the record under the given or
generated identifier.  The returned Python value is the identifier on
success and `None` on conflict, matching how `voter_registration_request`
consumes it (lines 96-114). -/
def Storage.insert (s : Storage) (requested : Option String)
    (r : VoterRecordsRequest) : Storage × PyVal :=
  match requested with
  | some id =>
      if s.inUse id then (s, PyVal.none)
      else ((id, r) :: s, PyVal.str id)
  | Option.none =>
      ((s.freshId, r) :: s, PyVal.str s.freshId)

/-- Modelled from the spec (§4.1 `lookup`): the stored record if the
identifier is in use, else `None` (the absent outcome the handler sees as
falsy at line 181). -/
def Storage.lookup (s : Storage) (id : String) : PyVal :=
  match s.find? id with
  | some r => PyVal.record r
  | Option.none => PyVal.none

/-- Modelled from the spec (§4.1 `update`): replace the record in place if
the identifier is in use (identifier unchanged, never creates), else the
absent outcome. -/
def Storage.updateRec (s : Storage) (id : String) (r : VoterRecordsRequest) :
    Storage × PyVal :=
  if s.inUse id then
    (s.map (fun e => if e.1 = id then (id, r) else e), PyVal.str id)
  else (s, PyVal.none)

/-- Modelled from the spec (§4.1 `remove`): delete the record if the
identifier is in use, else the absent outcome. -/
def Storage.remove (s : Storage) (id : String) : Storage × PyVal :=
  if s.inUse id then
    (s.filter (fun e => !(e.1 == id)), PyVal.str id)
  else (s, PyVal.none)

/-- One storage invocation, as recorded by the instrumented lifecycle
operations below. -/
inductive StoreCall where
  | insert (requested : Option String)
  | lookup (id : String)
  | update (id : String)
  | remove (id : String)
deriving DecidableEq, Repr

/-- A lifecycle operation's complete effect: the store afterwards, the
handler's observable result, and the storage calls it made. -/
structure OpResult where
  state : Storage
  result : HandlerResult
  calls : List StoreCall
deriving DecidableEq, Repr

/-- The create operation end to end (`voter_registration_request`, line 96
onward): one `insert` call, then the decision logic.  FastAPI's default
status code for the route is 200 before the handler runs. -/
def createOp (s : Storage) (item : VoterRecordsRequest) : OpResult :=
  let out := Storage.insert s item.transaction_id item
  { state := out.1
    result := voter_registration_request_logic out.2 HTTP_200_OK
    calls := [StoreCall.insert item.transaction_id] }

/-- The status operation end to end (`voter_registration_status`, line 180
onward): one `lookup` call, no store mutation. -/
def statusOp (s : Storage) (transaction_id : String) : OpResult :=
  { state := s
    result := voter_registration_status_logic transaction_id
      (s.lookup transaction_id) HTTP_200_OK
    calls := [StoreCall.lookup transaction_id] }

/-- The update operation end to end (`voter_registration_update`, line 270
onward): one `update` call, then the decision logic. -/
def updateOp (s : Storage) (transaction_id : String)
    (item : VoterRecordsRequest) : OpResult :=
  let out := Storage.updateRec s transaction_id item
  { state := out.1
    result := voter_registration_update_logic transaction_id out.2 HTTP_200_OK
    calls := [StoreCall.update transaction_id] }

/-- The cancel operation end to end (`voter_registration_cancel`, line 349
onward): one `remove` call, then the decision logic. -/
def cancelOp (s : Storage) (transaction_id : String) : OpResult :=
  let out := Storage.remove s transaction_id
  { state := out.1
    result := voter_registration_cancel_logic transaction_id out.2 HTTP_200_OK
    calls := [StoreCall.remove transaction_id] }

/-- Folding a sequence of create requests over a store. -/
def applyCreates (s : Storage) : List VoterRecordsRequest → Storage
  | [] => s
  | item :: rest => applyCreates (createOp s item).state rest

/-- Containment of a phrase in a string. -/
def containsPhrase (s phrase : String) : Prop :=
  ∃ pre post : String, s = pre ++ (phrase ++ post)

/-- Machine-readable error codes carried by a response (empty unless it is a
rejection). -/
def VoterRecordsResponse.errorCodes : VoterRecordsResponse → List RequestError
  | .RequestRejection _ errs _ => errs.map Error.Name
  | _ => []

/-- Transaction identifier field of a rejection, `Option.none` for the other
shapes. -/
def VoterRecordsResponse.rejTransactionId : VoterRecordsResponse → Option PyVal
  | .RequestRejection _ _ tid => some tid
  | _ => Option.none

/-- Human-readable details carried by a response (empty unless it is a
rejection). -/
def VoterRecordsResponse.details : VoterRecordsResponse → List String
  | .RequestRejection d _ _ => d
  | _ => []

theorem find?_eq_none_iff (s : Storage) (id : String) :
    s.find? id = Option.none ↔ id ∉ s.keys := by
  induction s with
  | nil => simp [Storage.find?, Storage.keys]
  | cons e rest ih =>
      by_cases h : e.1 = id
      · simp [Storage.find?, Storage.keys, h]
      · simp [Storage.find?, Storage.keys, h, ih, Ne.symm h]

theorem inUse_false_iff (s : Storage) (id : String) :
    s.inUse id = false ↔ id ∉ s.keys := by
  rw [← find?_eq_none_iff]
  unfold Storage.inUse
  cases s.find? id <;> simp

theorem length_le_maxKeyLen (s : Storage) :
    ∀ id ∈ s.keys, id.length ≤ s.maxKeyLen := by
  induction s with
  | nil => simp [Storage.keys]
  | cons e rest ih =>
      intro id hid
      rcases List.mem_cons.mp hid with h | h
      · subst h
        exact le_max_left _ _
      · exact le_trans (ih id h) (le_max_right _ _)

theorem freshId_length (s : Storage) :
    (Storage.freshId s).length = s.maxKeyLen + 1 := by
  simp [Storage.freshId, String.length]

theorem freshId_not_mem_keys (s : Storage) : Storage.freshId s ∉ s.keys := by
  intro hmem
  have h1 := length_le_maxKeyLen s _ hmem
  rw [freshId_length] at h1
  omega

theorem freshId_not_inUse (s : Storage) : s.inUse s.freshId = false :=
  (inUse_false_iff s s.freshId).mpr (freshId_not_mem_keys s)

theorem find?_filter_ne (s : Storage) (id : String) :
    Storage.find? (s.filter (fun e => !(e.1 == id))) id = Option.none := by
  induction s with
  | nil => simp [Storage.find?]
  | cons e rest ih =>
      rw [List.filter_cons]
      by_cases h : e.1 = id
      · simpa [h] using ih
      · simpa [h, Storage.find?] using ih

theorem inUse_remove_self (s : Storage) (id : String) :
    Storage.inUse (Storage.remove s id).1 id = false := by
  by_cases h : s.inUse id
  · simp only [Storage.remove, h, if_pos]
    simp [Storage.inUse, find?_filter_ne]
  · simp only [Storage.remove]
    rw [if_neg (by simpa using h)]
    simpa using h

theorem find?_cons_self (s : Storage) (id : String) (r : VoterRecordsRequest) :
    Storage.find? ((id, r) :: s) id = some r := by
  simp [Storage.find?]

theorem keys_insert_nodup (s : Storage) (requested : Option String)
    (r : VoterRecordsRequest) (hs : s.keys.Nodup) :
    (Storage.insert s requested r).1.keys.Nodup := by
  match requested with
  | some id =>
      by_cases h : s.inUse id
      · simpa [Storage.insert, h] using hs
      · rw [Bool.not_eq_true] at h
        have hnot : id ∉ s.keys := (inUse_false_iff s id).mp h
        simp [Storage.insert, h, Storage.keys, List.nodup_cons]
        exact ⟨by simpa [Storage.keys] using hnot, by simpa [Storage.keys] using hs⟩
  | Option.none =>
      simp only [Storage.insert, Storage.keys, List.map_cons, List.nodup_cons]
      exact ⟨by simpa [Storage.keys] using freshId_not_mem_keys s,
        by simpa [Storage.keys] using hs⟩

theorem applyCreates_nodup (items : List VoterRecordsRequest) :
    ∀ s : Storage, s.keys.Nodup → (applyCreates s items).keys.Nodup := by
  induction items with
  | nil => intro s hs; simpa [applyCreates] using hs
  | cons item rest ih =>
      intro s hs
      exact ih _ (keys_insert_nodup s item.transaction_id item hs)

theorem insert_conflict (s : Storage) (id : String) (r : VoterRecordsRequest)
    (h : s.inUse id = true) : Storage.insert s (some id) r = (s, PyVal.none) := by
  simp [Storage.insert, h]

theorem insert_unused (s : Storage) (id : String) (r : VoterRecordsRequest)
    (h : s.inUse id = false) :
    Storage.insert s (some id) r = ((id, r) :: s, PyVal.str id) := by
  simp [Storage.insert, h]

theorem updateRec_found (s : Storage) (id : String) (r : VoterRecordsRequest)
    (h : s.inUse id = true) :
    Storage.updateRec s id r =
      (s.map (fun e => if e.1 = id then (id, r) else e), PyVal.str id) := by
  simp [Storage.updateRec, h]

theorem updateRec_absent (s : Storage) (id : String) (r : VoterRecordsRequest)
    (h : s.inUse id = false) : Storage.updateRec s id r = (s, PyVal.none) := by
  simp [Storage.updateRec, h]

theorem remove_found (s : Storage) (id : String) (h : s.inUse id = true) :
    Storage.remove s id = (s.filter (fun e => !(e.1 == id)), PyVal.str id) := by
  simp [Storage.remove, h]

theorem remove_absent (s : Storage) (id : String) (h : s.inUse id = false) :
    Storage.remove s id = (s, PyVal.none) := by
  simp [Storage.remove, h]

theorem lookup_found (s : Storage) (id : String) (r : VoterRecordsRequest)
    (h : s.find? id = some r) : s.lookup id = PyVal.record r := by
  simp [Storage.lookup, h]

theorem lookup_absent (s : Storage) (id : String) (h : s.inUse id = false) :
    s.lookup id = PyVal.none := by
  unfold Storage.inUse at h
  unfold Storage.lookup
  cases hf : s.find? id with
  | none => rfl
  | some r => rw [hf] at h; simp at h

theorem inUse_exists (s : Storage) (id : String) (h : s.inUse id = true) :
    ∃ r, s.find? id = some r := by
  unfold Storage.inUse at h
  exact Option.isSome_iff_exists.mp h

theorem request_logic_truthy (v : PyVal) (st : Nat) (h : v.truthy = true) :
    voter_registration_request_logic v st =
      { response := .RequestSuccess [SuccessAction.REGISTRATION_CREATED] v
        status_code := HTTP_201_CREATED } := by
  simp [voter_registration_request_logic, h]

theorem request_logic_falsy (v : PyVal) (st : Nat) (h : v.truthy = false) :
    voter_registration_request_logic v st =
      { response := .RequestRejection [conflictDetail]
          [⟨RequestError.IDENTITY_LOOKUP_FAILED⟩] v
        status_code := HTTP_400_BAD_REQUEST } := by
  simp [voter_registration_request_logic, h]

theorem status_logic_truthy (tid : String) (v : PyVal) (st : Nat)
    (h : v.truthy = true) :
    voter_registration_status_logic tid v st =
      { response := .RequestAcknowledgement (.str tid), status_code := st } := by
  simp [voter_registration_status_logic, h]

theorem status_logic_falsy (tid : String) (v : PyVal) (st : Nat)
    (h : v.truthy = false) :
    voter_registration_status_logic tid v st =
      { response := .RequestRejection [notFoundDetail]
          [⟨RequestError.IDENTITY_LOOKUP_FAILED⟩] (.str tid)
        status_code := HTTP_404_NOT_FOUND } := by
  simp [voter_registration_status_logic, h]

theorem update_logic_truthy (tid : String) (v : PyVal) (st : Nat)
    (h : v.truthy = true) :
    voter_registration_update_logic tid v st =
      { response := .RequestSuccess [SuccessAction.REGISTRATION_UPDATED]
          (.str tid)
        status_code := st } := by
  simp [voter_registration_update_logic, h]

theorem update_logic_falsy (tid : String) (v : PyVal) (st : Nat)
    (h : v.truthy = false) :
    voter_registration_update_logic tid v st =
      { response := .RequestRejection [notFoundDetail]
          [⟨RequestError.IDENTITY_LOOKUP_FAILED⟩] (.str tid)
        status_code := HTTP_404_NOT_FOUND } := by
  simp [voter_registration_update_logic, h]

theorem cancel_logic_truthy (tid : String) (v : PyVal) (st : Nat)
    (h : v.truthy = true) :
    voter_registration_cancel_logic tid v st =
      { response := .RequestSuccess [SuccessAction.REGISTRATION_CANCELLED]
          (.str tid)
        status_code := st } := by
  simp [voter_registration_cancel_logic, h]

theorem cancel_logic_falsy (tid : String) (v : PyVal) (st : Nat)
    (h : v.truthy = false) :
    voter_registration_cancel_logic tid v st =
      { response := .RequestRejection [notFoundDetail]
          [⟨RequestError.IDENTITY_LOOKUP_FAILED⟩] (.str tid)
        status_code := HTTP_404_NOT_FOUND } := by
  simp [voter_registration_cancel_logic, h]

theorem str_truthy (id : String) (h : id ≠ "") :
    (PyVal.str id).truthy = true := by
  simp [PyVal.truthy, h]

/-- C4: every possible Store outcome of each of the four operations is
handled: whatever value the store returns, each handler's decision logic
yields either its success shape (acknowledgement for status) or its
rejection shape, so the success/rejection case split is exhaustive and no
other result can escape the handler. -/
theorem C4_case_split_exhaustive :
    (∀ (v : PyVal) (st : Nat),
       (voter_registration_request_logic v st).response.isSuccess = true ∨
       (voter_registration_request_logic v st).response.isRejection = true) ∧
    (∀ (tid : String) (v : PyVal) (st : Nat),
       (voter_registration_status_logic tid v st).response.isAcknowledgement
           = true ∨
       (voter_registration_status_logic tid v st).response.isRejection
           = true) ∧
    (∀ (tid : String) (v : PyVal) (st : Nat),
       (voter_registration_update_logic tid v st).response.isSuccess = true ∨
       (voter_registration_update_logic tid v st).response.isRejection
           = true) ∧
    (∀ (tid : String) (v : PyVal) (st : Nat),
       (voter_registration_cancel_logic tid v st).response.isSuccess = true ∨
       (voter_registration_cancel_logic tid v st).response.isRejection
           = true) := by
  refine ⟨?_, ?_, ?_, ?_⟩
  · intro v st
    cases hv : v.truthy
    · right; rw [request_logic_falsy v st hv]; rfl
    · left; rw [request_logic_truthy v st hv]; rfl
  · intro tid v st
    cases hv : v.truthy
    · right; rw [status_logic_falsy tid v st hv]; rfl
    · left; rw [status_logic_truthy tid v st hv]; rfl
  · intro tid v st
    cases hv : v.truthy
    · right; rw [update_logic_falsy tid v st hv]; rfl
    · left; rw [update_logic_truthy tid v st hv]; rfl
  · intro tid v st
    cases hv : v.truthy
    · right; rw [cancel_logic_falsy tid v st hv]; rfl
    · left; rw [cancel_logic_truthy tid v st hv]; rfl

/-- C8: each lifecycle operation performs exactly the one storage call its
code contains (no loops or retries), the store afterwards is exactly what
that single call produced (so the mapping is mutated at most once and there
is no other effect), and the status operation does not mutate the store at
all. -/
theorem C8_single_store_call :
    (∀ (s : Storage) (item : VoterRecordsRequest),
       (createOp s item).calls = [StoreCall.insert item.transaction_id] ∧
       (createOp s item).state
           = (Storage.insert s item.transaction_id item).1) ∧
    (∀ (s : Storage) (tid : String),
       (statusOp s tid).calls = [StoreCall.lookup tid] ∧
       (statusOp s tid).state = s) ∧
    (∀ (s : Storage) (tid : String) (item : VoterRecordsRequest),
       (updateOp s tid item).calls = [StoreCall.update tid] ∧
       (updateOp s tid item).state = (Storage.updateRec s tid item).1) ∧
    (∀ (s : Storage) (tid : String),
       (cancelOp s tid).calls = [StoreCall.remove tid] ∧
       (cancelOp s tid).state = (Storage.remove s tid).1) :=
  ⟨fun _ _ => ⟨rfl, rfl⟩, fun _ _ => ⟨rfl, rfl⟩,
   fun _ _ _ => ⟨rfl, rfl⟩, fun _ _ => ⟨rfl, rfl⟩⟩

/-- C10: the handlers classify the store's result by Python truthiness: any
falsy insert result (None, or an empty-string identifier) makes create
return the rejection shape with status 400; any falsy lookup result makes
status report the not-found rejection; and in particular an insert that
succeeds with the empty-string identifier stores the record yet is reported
as a failure. -/
theorem C10_truthiness_classification :
    (∀ (v : PyVal) (st : Nat), v.truthy = false →
       (voter_registration_request_logic v st).response.isRejection = true ∧
       (voter_registration_request_logic v st).status_code
           = HTTP_400_BAD_REQUEST) ∧
    (∀ (tid : String) (v : PyVal) (st : Nat), v.truthy = false →
       (voter_registration_status_logic tid v st).response =
         .RequestRejection [notFoundDetail]
           [⟨RequestError.IDENTITY_LOOKUP_FAILED⟩] (.str tid)) ∧
    (∀ (s : Storage) (item : VoterRecordsRequest),
       item.transaction_id = some "" → s.inUse "" = false →
       Storage.find? (createOp s item).state "" = some item ∧
       (createOp s item).result.response.isRejection = true ∧
       (createOp s item).result.status_code = HTTP_400_BAD_REQUEST) := by
  refine ⟨?_, ?_, ?_⟩
  · intro v st hv
    rw [request_logic_falsy v st hv]
    exact ⟨rfl, rfl⟩
  · intro tid v st hv
    rw [status_logic_falsy tid v st hv]
  · intro s item h1 h2
    have hins := insert_unused s "" item h2
    have hstate : (createOp s item).state = ("", item) :: s := by
      simp [createOp, h1, hins]
    have hres : (createOp s item).result
        = voter_registration_request_logic (PyVal.str "") HTTP_200_OK := by
      simp [createOp, h1, hins]
    refine ⟨?_, ?_, ?_⟩
    · rw [hstate]; exact find?_cons_self s "" item
    · rw [hres, request_logic_falsy _ _ (by decide)]; rfl
    · rw [hres, request_logic_falsy _ _ (by decide)]

/-- Witness for C10: concrete instances of each conjunct. -/
theorem C10_truthiness_classification_witness :
    ((voter_registration_request_logic (PyVal.str "") 200).response.isRejection
         = true ∧
     (voter_registration_request_logic (PyVal.str "") 200).status_code
         = HTTP_400_BAD_REQUEST) ∧
    ((voter_registration_status_logic "a" PyVal.none 200).response =
       .RequestRejection [notFoundDetail]
         [⟨RequestError.IDENTITY_LOOKUP_FAILED⟩] (.str "a")) ∧
    (Storage.find? (createOp ([] : Storage) ⟨some "", 0⟩).state ""
         = some ⟨some "", 0⟩ ∧
     (createOp ([] : Storage) ⟨some "", 0⟩).result.response.isRejection
         = true ∧
     (createOp ([] : Storage) ⟨some "", 0⟩).result.status_code
         = HTTP_400_BAD_REQUEST) :=
  ⟨C10_truthiness_classification.1 (PyVal.str "") 200 (by decide),
   C10_truthiness_classification.2.1 "a" PyVal.none 200 (by decide),
   C10_truthiness_classification.2.2 [] ⟨some "", 0⟩ (by decide) (by decide)⟩

/-- C2: every failed store call (conflict on create, absent on status,
update, cancel) makes the handler return a rejection whose machine-readable
error code list is exactly the single code IDENTITY_LOOKUP_FAILED, in all
four operations. -/
theorem C2_single_error_code :
    (∀ (s : Storage) (item : VoterRecordsRequest) (id : String),
       item.transaction_id = some id → s.inUse id = true →
       (createOp s item).result.response.isRejection = true ∧
       (createOp s item).result.response.errorCodes
           = [RequestError.IDENTITY_LOOKUP_FAILED]) ∧
    (∀ (s : Storage) (tid : String), s.inUse tid = false →
       (statusOp s tid).result.response.isRejection = true ∧
       (statusOp s tid).result.response.errorCodes
           = [RequestError.IDENTITY_LOOKUP_FAILED]) ∧
    (∀ (s : Storage) (tid : String) (item : VoterRecordsRequest),
       s.inUse tid = false →
       (updateOp s tid item).result.response.isRejection = true ∧
       (updateOp s tid item).result.response.errorCodes
           = [RequestError.IDENTITY_LOOKUP_FAILED]) ∧
    (∀ (s : Storage) (tid : String), s.inUse tid = false →
       (cancelOp s tid).result.response.isRejection = true ∧
       (cancelOp s tid).result.response.errorCodes
           = [RequestError.IDENTITY_LOOKUP_FAILED]) := by
  refine ⟨?_, ?_, ?_, ?_⟩
  · intro s item id h1 h2
    have hres : (createOp s item).result
        = voter_registration_request_logic PyVal.none HTTP_200_OK := by
      simp [createOp, h1, insert_conflict s id item h2]
    rw [hres, request_logic_falsy _ _ (by decide)]
    exact ⟨rfl, rfl⟩
  · intro s tid h
    have hres : (statusOp s tid).result
        = voter_registration_status_logic tid PyVal.none HTTP_200_OK := by
      simp [statusOp, lookup_absent s tid h]
    rw [hres, status_logic_falsy _ _ _ (by decide)]
    exact ⟨rfl, rfl⟩
  · intro s tid item h
    have hres : (updateOp s tid item).result
        = voter_registration_update_logic tid PyVal.none HTTP_200_OK := by
      simp [updateOp, updateRec_absent s tid item h]
    rw [hres, update_logic_falsy _ _ _ (by decide)]
    exact ⟨rfl, rfl⟩
  · intro s tid h
    have hres : (cancelOp s tid).result
        = voter_registration_cancel_logic tid PyVal.none HTTP_200_OK := by
      simp [cancelOp, remove_absent s tid h]
    rw [hres, cancel_logic_falsy _ _ _ (by decide)]
    exact ⟨rfl, rfl⟩

/-- Witness for C2: concrete instances of each conjunct. -/
theorem C2_single_error_code_witness :
    ((createOp [("a", ⟨Option.none, 0⟩)] ⟨some "a", 1⟩).result.response.isRejection
         = true ∧
     (createOp [("a", ⟨Option.none, 0⟩)] ⟨some "a", 1⟩).result.response.errorCodes
         = [RequestError.IDENTITY_LOOKUP_FAILED]) ∧
    ((statusOp ([] : Storage) "a").result.response.isRejection = true ∧
     (statusOp ([] : Storage) "a").result.response.errorCodes
         = [RequestError.IDENTITY_LOOKUP_FAILED]) ∧
    ((updateOp ([] : Storage) "a" ⟨Option.none, 2⟩).result.response.isRejection
         = true ∧
     (updateOp ([] : Storage) "a" ⟨Option.none, 2⟩).result.response.errorCodes
         = [RequestError.IDENTITY_LOOKUP_FAILED]) ∧
    ((cancelOp ([] : Storage) "a").result.response.isRejection = true ∧
     (cancelOp ([] : Storage) "a").result.response.errorCodes
         = [RequestError.IDENTITY_LOOKUP_FAILED]) :=
  ⟨C2_single_error_code.1 [("a", ⟨Option.none, 0⟩)] ⟨some "a", 1⟩ "a"
      (by decide) (by decide),
   C2_single_error_code.2.1 [] "a" (by decide),
   C2_single_error_code.2.2.1 [] "a" ⟨Option.none, 2⟩ (by decide),
   C2_single_error_code.2.2.2 [] "a" (by decide)⟩

/-- C3: identifier asymmetry on the failure paths: a create rejected on
conflict carries no identifier in its rejection (the TransactionId field is
the falsy insert result, None), while a status, update, or cancel rejected
on absence echoes back exactly the identifier the caller supplied. -/
theorem C3_identifier_asymmetry :
    (∀ (s : Storage) (item : VoterRecordsRequest) (id : String),
       item.transaction_id = some id → s.inUse id = true →
       (createOp s item).result.response.rejTransactionId = some PyVal.none) ∧
    (∀ (s : Storage) (tid : String), s.inUse tid = false →
       (statusOp s tid).result.response.rejTransactionId
           = some (PyVal.str tid)) ∧
    (∀ (s : Storage) (tid : String) (item : VoterRecordsRequest),
       s.inUse tid = false →
       (updateOp s tid item).result.response.rejTransactionId
           = some (PyVal.str tid)) ∧
    (∀ (s : Storage) (tid : String), s.inUse tid = false →
       (cancelOp s tid).result.response.rejTransactionId
           = some (PyVal.str tid)) := by
  refine ⟨?_, ?_, ?_, ?_⟩
  · intro s item id h1 h2
    have hres : (createOp s item).result
        = voter_registration_request_logic PyVal.none HTTP_200_OK := by
      simp [createOp, h1, insert_conflict s id item h2]
    rw [hres, request_logic_falsy _ _ (by decide)]
    rfl
  · intro s tid h
    have hres : (statusOp s tid).result
        = voter_registration_status_logic tid PyVal.none HTTP_200_OK := by
      simp [statusOp, lookup_absent s tid h]
    rw [hres, status_logic_falsy _ _ _ (by decide)]
    rfl
  · intro s tid item h
    have hres : (updateOp s tid item).result
        = voter_registration_update_logic tid PyVal.none HTTP_200_OK := by
      simp [updateOp, updateRec_absent s tid item h]
    rw [hres, update_logic_falsy _ _ _ (by decide)]
    rfl
  · intro s tid h
    have hres : (cancelOp s tid).result
        = voter_registration_cancel_logic tid PyVal.none HTTP_200_OK := by
      simp [cancelOp, remove_absent s tid h]
    rw [hres, cancel_logic_falsy _ _ _ (by decide)]
    rfl

/-- Witness for C3: concrete instances of each conjunct. -/
theorem C3_identifier_asymmetry_witness :
    (createOp [("a", ⟨Option.none, 0⟩)] ⟨some "a", 1⟩).result.response.rejTransactionId
        = some PyVal.none ∧
    (statusOp ([] : Storage) "b").result.response.rejTransactionId
        = some (PyVal.str "b") ∧
    (updateOp ([] : Storage) "b" ⟨Option.none, 2⟩).result.response.rejTransactionId
        = some (PyVal.str "b") ∧
    (cancelOp ([] : Storage) "b").result.response.rejTransactionId
        = some (PyVal.str "b") :=
  ⟨C3_identifier_asymmetry.1 [("a", ⟨Option.none, 0⟩)] ⟨some "a", 1⟩ "a"
      (by decide) (by decide),
   C3_identifier_asymmetry.2.1 [] "b" (by decide),
   C3_identifier_asymmetry.2.2.1 [] "b" ⟨Option.none, 2⟩ (by decide),
   C3_identifier_asymmetry.2.2.2 [] "b" (by decide)⟩

/-- C5: transport status codes follow the reference mapping: a create that
returns the success shape sets 201 and one that returns the rejection shape
sets 400 (in particular every conflict sets 400); status, update and cancel
leave the incoming 200 in place exactly when they return their success
shape, and set 404 otherwise (in particular every absence sets 404). -/
theorem C5_status_codes :
    (∀ (s : Storage) (item : VoterRecordsRequest),
       (createOp s item).result.status_code =
         if (createOp s item).result.response.isSuccess = true
         then HTTP_201_CREATED else HTTP_400_BAD_REQUEST) ∧
    (∀ (s : Storage) (tid : String),
       (statusOp s tid).result.status_code =
         if (statusOp s tid).result.response.isAcknowledgement = true
         then HTTP_200_OK else HTTP_404_NOT_FOUND) ∧
    (∀ (s : Storage) (tid : String) (item : VoterRecordsRequest),
       (updateOp s tid item).result.status_code =
         if (updateOp s tid item).result.response.isSuccess = true
         then HTTP_200_OK else HTTP_404_NOT_FOUND) ∧
    (∀ (s : Storage) (tid : String),
       (cancelOp s tid).result.status_code =
         if (cancelOp s tid).result.response.isSuccess = true
         then HTTP_200_OK else HTTP_404_NOT_FOUND) ∧
    (∀ (s : Storage) (item : VoterRecordsRequest) (id : String),
       item.transaction_id = some id → s.inUse id = true →
       (createOp s item).result.status_code = HTTP_400_BAD_REQUEST) ∧
    (∀ (s : Storage) (tid : String) (item : VoterRecordsRequest),
       s.inUse tid = false →
       (statusOp s tid).result.status_code = HTTP_404_NOT_FOUND ∧
       (updateOp s tid item).result.status_code = HTTP_404_NOT_FOUND ∧
       (cancelOp s tid).result.status_code = HTTP_404_NOT_FOUND) := by
  refine ⟨?_, ?_, ?_, ?_, ?_, ?_⟩
  · intro s item
    have hres : (createOp s item).result
        = voter_registration_request_logic
            (Storage.insert s item.transaction_id item).2 HTTP_200_OK := rfl
    cases hv : (Storage.insert s item.transaction_id item).2.truthy
    · rw [hres, request_logic_falsy _ _ hv]; rfl
    · rw [hres, request_logic_truthy _ _ hv]; rfl
  · intro s tid
    have hres : (statusOp s tid).result
        = voter_registration_status_logic tid (Storage.lookup s tid)
            HTTP_200_OK := rfl
    cases hv : (Storage.lookup s tid).truthy
    · rw [hres, status_logic_falsy _ _ _ hv]; rfl
    · rw [hres, status_logic_truthy _ _ _ hv]; rfl
  · intro s tid item
    have hres : (updateOp s tid item).result
        = voter_registration_update_logic tid
            (Storage.updateRec s tid item).2 HTTP_200_OK := rfl
    cases hv : (Storage.updateRec s tid item).2.truthy
    · rw [hres, update_logic_falsy _ _ _ hv]; rfl
    · rw [hres, update_logic_truthy _ _ _ hv]; rfl
  · intro s tid
    have hres : (cancelOp s tid).result
        = voter_registration_cancel_logic tid (Storage.remove s tid).2
            HTTP_200_OK := rfl
    cases hv : (Storage.remove s tid).2.truthy
    · rw [hres, cancel_logic_falsy _ _ _ hv]; rfl
    · rw [hres, cancel_logic_truthy _ _ _ hv]; rfl
  · intro s item id h1 h2
    have hres : (createOp s item).result
        = voter_registration_request_logic PyVal.none HTTP_200_OK := by
      simp [createOp, h1, insert_conflict s id item h2]
    rw [hres, request_logic_falsy _ _ (by decide)]
  · intro s tid item h
    refine ⟨?_, ?_, ?_⟩
    · have hres : (statusOp s tid).result
          = voter_registration_status_logic tid PyVal.none HTTP_200_OK := by
        simp [statusOp, lookup_absent s tid h]
      rw [hres, status_logic_falsy _ _ _ (by decide)]
    · have hres : (updateOp s tid item).result
          = voter_registration_update_logic tid PyVal.none HTTP_200_OK := by
        simp [updateOp, updateRec_absent s tid item h]
      rw [hres, update_logic_falsy _ _ _ (by decide)]
    · have hres : (cancelOp s tid).result
          = voter_registration_cancel_logic tid PyVal.none HTTP_200_OK := by
        simp [cancelOp, remove_absent s tid h]
      rw [hres, cancel_logic_falsy _ _ _ (by decide)]

/-- Witness for C5: concrete instances of the conjuncts with hypotheses,
plus the shape pairings at concrete inputs. -/
theorem C5_status_codes_witness :
    ((createOp ([] : Storage) ⟨some "a", 0⟩).result.status_code =
       if (createOp ([] : Storage) ⟨some "a", 0⟩).result.response.isSuccess
           = true
       then HTTP_201_CREATED else HTTP_400_BAD_REQUEST) ∧
    ((createOp [("a", ⟨Option.none, 0⟩)] ⟨some "a", 1⟩).result.status_code
         = HTTP_400_BAD_REQUEST) ∧
    ((statusOp ([] : Storage) "b").result.status_code = HTTP_404_NOT_FOUND ∧
     (updateOp ([] : Storage) "b" ⟨Option.none, 2⟩).result.status_code
         = HTTP_404_NOT_FOUND ∧
     (cancelOp ([] : Storage) "b").result.status_code = HTTP_404_NOT_FOUND) :=
  ⟨C5_status_codes.1 [] ⟨some "a", 0⟩,
   C5_status_codes.2.2.2.2.1 [("a", ⟨Option.none, 0⟩)] ⟨some "a", 1⟩ "a"
      (by decide) (by decide),
   C5_status_codes.2.2.2.2.2 [] "b" ⟨Option.none, 2⟩ (by decide)⟩

theorem conflictDetail_contains :
    containsPhrase conflictDetail "request already exists" :=
  ⟨"Voter registration ",
   ". The transaction ID is already associated to a pending request.",
   by rfl⟩

theorem notFoundDetail_contains : containsPhrase notFoundDetail "not found" :=
  ⟨"Voter registration request ",
   ". The transaction ID isn't associated with any pending requests.",
   by rfl⟩

/-- C9 as stated is false: the details carried by the rejections are the
handlers' full sentences, not the exact strings "request already exists"
and "not found".  Counterexample at a concrete conflict and a concrete
absence. -/
theorem C9_counterexample :
    (createOp [("a", ⟨Option.none, 0⟩)] ⟨some "a", 1⟩).result.response.details
        ≠ ["request already exists"] ∧
    (statusOp ([] : Storage) "a").result.response.details ≠ ["not found"] := by
  decide

/-- C9 amended: on create conflict the single human-readable detail contains
the phrase "request already exists", and on status, update, or cancel
absence the single detail contains the phrase "not found". -/
theorem C9_details_contain_phrases :
    (∀ (s : Storage) (item : VoterRecordsRequest) (id : String),
       item.transaction_id = some id → s.inUse id = true →
       ∃ d, (createOp s item).result.response.details = [d] ∧
         containsPhrase d "request already exists") ∧
    (∀ (s : Storage) (tid : String), s.inUse tid = false →
       ∃ d, (statusOp s tid).result.response.details = [d] ∧
         containsPhrase d "not found") ∧
    (∀ (s : Storage) (tid : String) (item : VoterRecordsRequest),
       s.inUse tid = false →
       ∃ d, (updateOp s tid item).result.response.details = [d] ∧
         containsPhrase d "not found") ∧
    (∀ (s : Storage) (tid : String), s.inUse tid = false →
       ∃ d, (cancelOp s tid).result.response.details = [d] ∧
         containsPhrase d "not found") := by
  refine ⟨?_, ?_, ?_, ?_⟩
  · intro s item id h1 h2
    refine ⟨conflictDetail, ?_, conflictDetail_contains⟩
    have hres : (createOp s item).result
        = voter_registration_request_logic PyVal.none HTTP_200_OK := by
      simp [createOp, h1, insert_conflict s id item h2]
    rw [hres, request_logic_falsy _ _ (by decide)]
    rfl
  · intro s tid h
    refine ⟨notFoundDetail, ?_, notFoundDetail_contains⟩
    have hres : (statusOp s tid).result
        = voter_registration_status_logic tid PyVal.none HTTP_200_OK := by
      simp [statusOp, lookup_absent s tid h]
    rw [hres, status_logic_falsy _ _ _ (by decide)]
    rfl
  · intro s tid item h
    refine ⟨notFoundDetail, ?_, notFoundDetail_contains⟩
    have hres : (updateOp s tid item).result
        = voter_registration_update_logic tid PyVal.none HTTP_200_OK := by
      simp [updateOp, updateRec_absent s tid item h]
    rw [hres, update_logic_falsy _ _ _ (by decide)]
    rfl
  · intro s tid h
    refine ⟨notFoundDetail, ?_, notFoundDetail_contains⟩
    have hres : (cancelOp s tid).result
        = voter_registration_cancel_logic tid PyVal.none HTTP_200_OK := by
      simp [cancelOp, remove_absent s tid h]
    rw [hres, cancel_logic_falsy _ _ _ (by decide)]
    rfl

/-- Witness for the amended C9: concrete instances of each conjunct. -/
theorem C9_details_contain_phrases_witness :
    (∃ d, (createOp [("a", ⟨Option.none, 0⟩)] ⟨some "a", 1⟩).result.response.details
        = [d] ∧ containsPhrase d "request already exists") ∧
    (∃ d, (statusOp ([] : Storage) "b").result.response.details = [d] ∧
       containsPhrase d "not found") ∧
    (∃ d, (updateOp ([] : Storage) "b" ⟨Option.none, 2⟩).result.response.details
        = [d] ∧ containsPhrase d "not found") ∧
    (∃ d, (cancelOp ([] : Storage) "b").result.response.details = [d] ∧
       containsPhrase d "not found") :=
  ⟨C9_details_contain_phrases.1 [("a", ⟨Option.none, 0⟩)] ⟨some "a", 1⟩ "a"
      (by decide) (by decide),
   C9_details_contain_phrases.2.1 [] "b" (by decide),
   C9_details_contain_phrases.2.2.1 [] "b" ⟨Option.none, 2⟩ (by decide),
   C9_details_contain_phrases.2.2.2 [] "b" (by decide)⟩

/-- C1 as stated is false at one corner: with an empty store and a request
whose client-supplied identifier is the empty string, the insert succeeds
(the record is stored and the identifier is returned), yet the create
handler classifies the returned identifier as falsy and returns the
rejection shape, not Success with REGISTRATION_CREATED. -/
theorem C1_counterexample :
    (Storage.insert ([] : Storage)
        (VoterRecordsRequest.transaction_id ⟨some "", 0⟩) ⟨some "", 0⟩).2
        = PyVal.str "" ∧
    Storage.find? (createOp ([] : Storage) ⟨some "", 0⟩).state ""
        = some ⟨some "", 0⟩ ∧
    (createOp ([] : Storage) ⟨some "", 0⟩).result.response
        ≠ .RequestSuccess [SuccessAction.REGISTRATION_CREATED] (PyVal.str "") ∧
    (createOp ([] : Storage) ⟨some "", 0⟩).result.response.isSuccess
        = false := by
  decide

/-- C1 amended: when the single store call reports success and the handler
regards its returned value as truthy (for create, update and cancel: the
identifier is non-empty; for status: always), the handler returns the
prescribed success shape: create yields Success with REGISTRATION_CREATED
and the stored identifier, update Success with REGISTRATION_UPDATED and the
requested identifier, cancel Success with REGISTRATION_CANCELLED and the
requested identifier, status an Acknowledgement with the requested
identifier. -/
theorem C1_success_shapes :
    (∀ (s : Storage) (item : VoterRecordsRequest) (id : String),
       (Storage.insert s item.transaction_id item).2 = PyVal.str id →
       id ≠ "" →
       (createOp s item).result.response
           = .RequestSuccess [SuccessAction.REGISTRATION_CREATED]
               (PyVal.str id)) ∧
    (∀ (s : Storage) (tid : String), s.inUse tid = true →
       (statusOp s tid).result.response
           = .RequestAcknowledgement (.str tid)) ∧
    (∀ (s : Storage) (tid : String) (item : VoterRecordsRequest),
       s.inUse tid = true → tid ≠ "" →
       (updateOp s tid item).result.response
           = .RequestSuccess [SuccessAction.REGISTRATION_UPDATED]
               (.str tid)) ∧
    (∀ (s : Storage) (tid : String), s.inUse tid = true → tid ≠ "" →
       (cancelOp s tid).result.response
           = .RequestSuccess [SuccessAction.REGISTRATION_CANCELLED]
               (.str tid)) := by
  refine ⟨?_, ?_, ?_, ?_⟩
  · intro s item id hins hne
    have hres : (createOp s item).result
        = voter_registration_request_logic
            (Storage.insert s item.transaction_id item).2 HTTP_200_OK := rfl
    rw [hres, hins, request_logic_truthy _ _ (str_truthy id hne)]
  · intro s tid h
    obtain ⟨r, hr⟩ := inUse_exists s tid h
    have hres : (statusOp s tid).result
        = voter_registration_status_logic tid (Storage.lookup s tid)
            HTTP_200_OK := rfl
    rw [hres, lookup_found s tid r hr,
      status_logic_truthy tid (PyVal.record r) HTTP_200_OK rfl]
  · intro s tid item h hne
    have h2 : (Storage.updateRec s tid item).2 = PyVal.str tid := by
      rw [updateRec_found s tid item h]
    have hres : (updateOp s tid item).result
        = voter_registration_update_logic tid
            (Storage.updateRec s tid item).2 HTTP_200_OK := rfl
    rw [hres, h2, update_logic_truthy _ _ _ (str_truthy tid hne)]
  · intro s tid h hne
    have h2 : (Storage.remove s tid).2 = PyVal.str tid := by
      rw [remove_found s tid h]
    have hres : (cancelOp s tid).result
        = voter_registration_cancel_logic tid (Storage.remove s tid).2
            HTTP_200_OK := rfl
    rw [hres, h2, cancel_logic_truthy _ _ _ (str_truthy tid hne)]

/-- Witness for the amended C1: concrete instances of each conjunct. -/
theorem C1_success_shapes_witness :
    (createOp ([] : Storage) ⟨some "a", 0⟩).result.response
        = .RequestSuccess [SuccessAction.REGISTRATION_CREATED]
            (PyVal.str "a") ∧
    (statusOp [("a", ⟨Option.none, 3⟩)] "a").result.response
        = .RequestAcknowledgement (.str "a") ∧
    (updateOp [("a", ⟨Option.none, 3⟩)] "a" ⟨Option.none, 4⟩).result.response
        = .RequestSuccess [SuccessAction.REGISTRATION_UPDATED] (.str "a") ∧
    (cancelOp [("a", ⟨Option.none, 3⟩)] "a").result.response
        = .RequestSuccess [SuccessAction.REGISTRATION_CANCELLED] (.str "a") :=
  ⟨C1_success_shapes.1 [] ⟨some "a", 0⟩ "a" (by decide) (by decide),
   C1_success_shapes.2.1 [("a", ⟨Option.none, 3⟩)] "a" (by decide),
   C1_success_shapes.2.2.1 [("a", ⟨Option.none, 3⟩)] "a" ⟨Option.none, 4⟩
      (by decide) (by decide),
   C1_success_shapes.2.2.2 [("a", ⟨Option.none, 3⟩)] "a"
      (by decide) (by decide)⟩

/-- C6: starting from an empty store, any sequence of creates leaves the
live identifiers pairwise distinct; and an insert supplying an identifier
currently in use returns the conflict outcome and leaves the store
unchanged, so the create handler rejects it and nothing is overwritten. -/
theorem C6_uniqueness :
    (∀ (items : List VoterRecordsRequest),
       (Storage.keys (applyCreates [] items)).Nodup) ∧
    (∀ (s : Storage) (id : String) (r : VoterRecordsRequest),
       s.inUse id = true → Storage.insert s (some id) r = (s, PyVal.none)) ∧
    (∀ (s : Storage) (item : VoterRecordsRequest) (id : String),
       item.transaction_id = some id → s.inUse id = true →
       (createOp s item).state = s ∧
       (createOp s item).result.response.isRejection = true) := by
  refine ⟨?_, ?_, ?_⟩
  · intro items
    exact applyCreates_nodup items [] (by simp [Storage.keys])
  · intro s id r h
    exact insert_conflict s id r h
  · intro s item id h1 h2
    constructor
    · show (Storage.insert s item.transaction_id item).1 = s
      rw [h1, insert_conflict s id item h2]
    · have hres : (createOp s item).result
          = voter_registration_request_logic PyVal.none HTTP_200_OK := by
        simp [createOp, h1, insert_conflict s id item h2]
      rw [hres, request_logic_falsy _ _ (by decide)]
      rfl

/-- Witness for C6: a concrete create sequence and a concrete conflict. -/
theorem C6_uniqueness_witness :
    (Storage.keys (applyCreates []
        [⟨Option.none, 0⟩, ⟨some "a", 1⟩, ⟨Option.none, 2⟩])).Nodup ∧
    Storage.insert [("a", ⟨Option.none, 0⟩)] (some "a") ⟨some "a", 1⟩
        = ([("a", ⟨Option.none, 0⟩)], PyVal.none) ∧
    ((createOp [("a", ⟨Option.none, 0⟩)] ⟨some "a", 1⟩).state
        = [("a", ⟨Option.none, 0⟩)] ∧
     (createOp [("a", ⟨Option.none, 0⟩)] ⟨some "a", 1⟩).result.response.isRejection
        = true) :=
  ⟨C6_uniqueness.1 [⟨Option.none, 0⟩, ⟨some "a", 1⟩, ⟨Option.none, 2⟩],
   C6_uniqueness.2.1 [("a", ⟨Option.none, 0⟩)] "a" ⟨some "a", 1⟩ (by decide),
   C6_uniqueness.2.2 [("a", ⟨Option.none, 0⟩)] ⟨some "a", 1⟩ "a"
      (by decide) (by decide)⟩

/-- C7: cancel frees the identity: after a cancel that the handler reports
as Success, an immediately following status on the same identifier yields
the not-found rejection with 404, and a subsequent create supplying the
same identifier succeeds with REGISTRATION_CREATED. -/
theorem C7_cancel_frees_identity :
    ∀ (s : Storage) (tid : String) (item : VoterRecordsRequest),
      (cancelOp s tid).result.response.isSuccess = true →
      item.transaction_id = some tid →
      (statusOp (cancelOp s tid).state tid).result.response
          = .RequestRejection [notFoundDetail]
              [⟨RequestError.IDENTITY_LOOKUP_FAILED⟩] (.str tid) ∧
      (statusOp (cancelOp s tid).state tid).result.status_code
          = HTTP_404_NOT_FOUND ∧
      (createOp (cancelOp s tid).state item).result.response
          = .RequestSuccess [SuccessAction.REGISTRATION_CREATED]
              (PyVal.str tid) := by
  intro s tid item hsucc hitem
  have hres0 : (cancelOp s tid).result
      = voter_registration_cancel_logic tid (Storage.remove s tid).2
          HTTP_200_OK := rfl
  have hin : s.inUse tid = true := by
    by_contra hc
    rw [Bool.not_eq_true] at hc
    have hrem : (Storage.remove s tid).2 = PyVal.none := by
      rw [remove_absent s tid hc]
    rw [hres0, hrem, cancel_logic_falsy _ _ _ (by decide)] at hsucc
    simp [VoterRecordsResponse.isSuccess] at hsucc
  have hrem2 : (Storage.remove s tid).2 = PyVal.str tid := by
    rw [remove_found s tid hin]
  have htid : tid ≠ "" := by
    intro he
    rw [hres0, hrem2, he, cancel_logic_falsy _ _ _ (by decide)] at hsucc
    simp [VoterRecordsResponse.isSuccess] at hsucc
  have hnotin : Storage.inUse (cancelOp s tid).state tid = false :=
    inUse_remove_self s tid
  refine ⟨?_, ?_, ?_⟩
  · have hres : (statusOp (cancelOp s tid).state tid).result
        = voter_registration_status_logic tid PyVal.none HTTP_200_OK := by
      simp [statusOp, lookup_absent _ tid hnotin]
    rw [hres, status_logic_falsy _ _ _ (by decide)]
  · have hres : (statusOp (cancelOp s tid).state tid).result
        = voter_registration_status_logic tid PyVal.none HTTP_200_OK := by
      simp [statusOp, lookup_absent _ tid hnotin]
    rw [hres, status_logic_falsy _ _ _ (by decide)]
  · have hins := insert_unused (cancelOp s tid).state tid item hnotin
    have hres : (createOp (cancelOp s tid).state item).result
        = voter_registration_request_logic (PyVal.str tid) HTTP_200_OK := by
      simp [createOp, hitem, hins]
    rw [hres, request_logic_truthy _ _ (str_truthy tid htid)]

/-- Witness for C7: a concrete store holding one record that is cancelled,
queried and re-created. -/
theorem C7_cancel_frees_identity_witness :
    (statusOp (cancelOp [("a", ⟨Option.none, 0⟩)] "a").state "a").result.response
        = .RequestRejection [notFoundDetail]
            [⟨RequestError.IDENTITY_LOOKUP_FAILED⟩] (.str "a") ∧
    (statusOp (cancelOp [("a", ⟨Option.none, 0⟩)] "a").state "a").result.status_code
        = HTTP_404_NOT_FOUND ∧
    (createOp (cancelOp [("a", ⟨Option.none, 0⟩)] "a").state
        ⟨some "a", 5⟩).result.response
        = .RequestSuccess [SuccessAction.REGISTRATION_CREATED]
            (PyVal.str "a") :=
  C7_cancel_frees_identity [("a", ⟨Option.none, 0⟩)] "a" ⟨some "a", 5⟩
    (by decide) (by decide)
